import Mathlib

/-!
Verification of the go-mcprotocol client (MELSEC MC protocol, frames 1E/3E).

The Go source is shallowly embedded: bytes are `Nat` values below 256, Go's
`fmt.Sprintf "%X"` on a byte slice becomes `bytesToHex`, on a single byte it
becomes `natToHexNoPad` (Go does not zero-pad a scalar), `binary.Write` of an
`int64` into a fresh buffer becomes `int64LEBytes`, and Go slice expressions
`b[i:j]` become `listExtract i j`.  Panics of slice expressions are modelled by
`Option`.
-/

namespace MCProto

/-- Uppercase hex digit, as produced by Go's `%X` verb (digits `0`-`9`, `A`-`F`). -/
def hexDigit (n : Nat) : Char :=
  if n < 10 then Char.ofNat (48 + n) else Char.ofNat (55 + n)

/-- The two hex characters Go's `%X` prints for one byte of a byte slice. -/
def byteToHexChars (b : Nat) : List Char :=
  [hexDigit (b / 16), hexDigit (b % 16)]

/-- Characters of `fmt.Sprintf "%X"` applied to a byte slice: two uppercase
hex digits per byte, concatenated. -/
def bytesHexChars : List Nat → List Char
  | [] => []
  | b :: rest => byteToHexChars b ++ bytesHexChars rest

/-- `fmt.Sprintf "%X"` applied to a byte slice. -/
def bytesToHex (l : List Nat) : String :=
  String.mk (bytesHexChars l)

/-- `fmt.Sprintf "%X"` applied to a single byte value (Go prints a scalar
without zero padding: `0x00 ↦ "0"`, `0x5A ↦ "5A"`).  Defined on the byte
range `0 ≤ b < 256`, the only values the parsers feed it. -/
def natToHexNoPad (b : Nat) : String :=
  if b < 16 then String.mk [hexDigit b] else String.mk (byteToHexChars b)

/-- The unsigned 64-bit value whose two's-complement bit pattern `binary.Write`
serialises for the `int64` `v`. -/
def u64 (v : Int) : Nat :=
  (v % ((2 : Int) ^ 64)).toNat

/-- The 8 bytes `binary.Write(buf, binary.LittleEndian, int64(v))` appends to a
fresh buffer, least significant first. -/
def int64LEBytes (v : Int) : List Nat :=
  [u64 v % 256, u64 v / 2 ^ 8 % 256, u64 v / 2 ^ 16 % 256, u64 v / 2 ^ 24 % 256,
   u64 v / 2 ^ 32 % 256, u64 v / 2 ^ 40 % 256, u64 v / 2 ^ 48 % 256, u64 v / 2 ^ 56 % 256]

/-- Go slice expression `l[a:b]` on a byte slice (in-bounds use only). -/
def listExtract (a b : Nat) (l : List Nat) : List Nat :=
  (l.drop a).take (b - a)

def SUB_HEADER : String := "5000"
def HEALTH_CHECK_COMMAND : String := "1906"
def HEALTH_CHECK_SUBCOMMAND : String := "0000"
def READ_COMMAND : String := "0104"
def READ_SUB_COMMAND : String := "0000"
def BIT_READ_SUB_COMMAND : String := "0100"
def WRITE_COMMAND : String := "0114"
def WRITE_SUB_COMMAND : String := "0000"
def BIT_WRITE_SUB_COMMAND : String := "0100"
def MONITORING_TIMER : String := "1000"

/-- `DeviceCodes` map from station.go: device name letter to hex code. -/
def DeviceCodes : List (String × String) :=
  [("X", "9C"), ("Y", "9D"), ("M", "90"), ("L", "92"), ("F", "93"),
   ("V", "94"), ("B", "A0"), ("W", "B4"), ("D", "A8")]

/-- Go map indexing `DeviceCodes[deviceName]`: the zero value `""` when the
key is absent. -/
def deviceCodeOf (deviceName : String) : String :=
  ((DeviceCodes.lookup deviceName).getD "")

/-- `station` from station.go: the four textual identity fields. -/
structure station where
  networkNum : String
  pcNum : String
  unitIONum : String
  unitStationNum : String
  deriving Repr, DecidableEq

/-- `NewLocalStation` from station.go. -/
def NewLocalStation : station :=
  { networkNum := "00", pcNum := "FF", unitIONum := "FF03", unitStationNum := "00" }

/-- `offsetHex` as computed by the builders: hex of the first 3 bytes of the
little-endian `int64` serialisation of `offset`. -/
def offsetHexOf (offset : Int) : String :=
  bytesToHex ((int64LEBytes offset).take 3)

/-- `points` as computed by the builders: hex of the first 2 bytes of the
little-endian `int64` serialisation of `numPoints`. -/
def pointsHexOf (numPoints : Int) : String :=
  bytesToHex ((int64LEBytes numPoints).take 2)

/-- `dataLen` as computed by the builders: hex of the first 2 bytes of the
little-endian `int64` serialisation of the (nonnegative) character count
`requestCharLen`. -/
def dataLenHexOf (requestCharLen : Nat) : String :=
  bytesToHex ((int64LEBytes (requestCharLen : Int)).take 2)

/-- `station.BuildHealthCheckRequest` from station.go. -/
def station.BuildHealthCheckRequest (h : station) : String :=
  let returnDataNum := "0500"
  let returnData := "4142434445"
  let requestStr := HEALTH_CHECK_COMMAND ++ HEALTH_CHECK_SUBCOMMAND ++ returnDataNum ++ returnData
  let requestCharLen := (MONITORING_TIMER ++ requestStr).length / 2
  SUB_HEADER ++ h.networkNum ++ h.pcNum ++ h.unitIONum ++ h.unitStationNum ++
    dataLenHexOf requestCharLen ++ MONITORING_TIMER ++ requestStr

/-- `station.buildReadRequestHelper` from station.go.  Note the Go code
computes `requestCharLen` from `READ_SUB_COMMAND` and the order
`deviceCode+offsetHex` even though the emitted frame uses `subCommand` and the
order `offsetHex+deviceCode`. -/
def station.buildReadRequestHelper (h : station) (deviceName : String)
    (offset numPoints : Int) (subCommand : String) : String :=
  let deviceCode := deviceCodeOf deviceName
  let offsetHex := offsetHexOf offset
  let points := pointsHexOf numPoints
  let requestCharLen :=
    (MONITORING_TIMER ++ READ_COMMAND ++ READ_SUB_COMMAND ++ deviceCode ++ offsetHex ++ points).length / 2
  let dataLen := dataLenHexOf requestCharLen
  SUB_HEADER ++ h.networkNum ++ h.pcNum ++ h.unitIONum ++ h.unitStationNum ++
    dataLen ++ MONITORING_TIMER ++ READ_COMMAND ++ subCommand ++ offsetHex ++ deviceCode ++ points

/-- `station.BuildReadRequest` from station.go. -/
def station.BuildReadRequest (h : station) (deviceName : String) (offset numPoints : Int) : String :=
  h.buildReadRequestHelper deviceName offset numPoints READ_SUB_COMMAND

/-- `station.BuildBitReadRequest` from station.go. -/
def station.BuildBitReadRequest (h : station) (deviceName : String) (offset numPoints : Int) : String :=
  h.buildReadRequestHelper deviceName offset numPoints BIT_READ_SUB_COMMAND

/-- Capacity of the slice `writeBuff.Bytes()` after `binary.Write` has written
`n` bytes of `[]byte` data into a fresh `bytes.Buffer`: Go's buffer keeps a
nil slice for an empty write and otherwise allocates at least
`smallBufferSize = 64` bytes (for writes above 64 bytes the allocator may
round the capacity up further; the claims only exercise `n ≤ 64`, where the
capacity is exactly this value). -/
def writeCap (n : Nat) : Nat :=
  if n = 0 then 0 else max n 64

/-- `writeHex` as computed by `buildWriteRequestHelper`: the hex text of
`writeBuff.Bytes()[0:2*numPoints]`, where the buffer holds `writeData`
followed by the zeroed remainder of its fresh allocation (in-bounds use
only). -/
def writeHexOf (writeData : List Nat) (numPoints : Int) : String :=
  bytesToHex
    ((writeData ++ List.replicate (writeCap writeData.length - writeData.length) 0).take
      (2 * numPoints).toNat)

/-- `station.buildWriteRequestHelper` from station.go.  The Go slice
expression `writeBuff.Bytes()[0:2*numPoints]` panics when `2*numPoints` is
negative or exceeds the buffer capacity (modelled as `none`); within capacity
but beyond the written length it reads the zeroed remainder of the fresh
allocation. -/
def station.buildWriteRequestHelper (h : station) (deviceName : String)
    (offset numPoints : Int) (writeData : List Nat) (subCommand : String) : Option String :=
  let deviceCode := deviceCodeOf deviceName
  let offsetHex := offsetHexOf offset
  if 0 ≤ 2 * numPoints ∧ 2 * numPoints ≤ (writeCap writeData.length : Int) then
    let writeHex := writeHexOf writeData numPoints
    let points := pointsHexOf numPoints
    let requestCharLen :=
      (MONITORING_TIMER ++ WRITE_COMMAND ++ WRITE_SUB_COMMAND ++ deviceCode ++ offsetHex ++
        points ++ writeHex).length / 2
    let dataLen := dataLenHexOf requestCharLen
    some (SUB_HEADER ++ h.networkNum ++ h.pcNum ++ h.unitIONum ++ h.unitStationNum ++
      dataLen ++ MONITORING_TIMER ++ WRITE_COMMAND ++ subCommand ++ offsetHex ++ deviceCode ++
      points ++ writeHex)
  else
    none

/-- `station.BuildWriteRequest` from station.go. -/
def station.BuildWriteRequest (h : station) (deviceName : String)
    (offset numPoints : Int) (writeData : List Nat) : Option String :=
  h.buildWriteRequestHelper deviceName offset numPoints writeData WRITE_SUB_COMMAND

/-- `station.BuildBitWriteRequest` from station.go. -/
def station.BuildBitWriteRequest (h : station) (deviceName : String)
    (offset numPoints : Int) (writeData : List Nat) : Option String :=
  h.buildWriteRequestHelper deviceName offset numPoints writeData BIT_WRITE_SUB_COMMAND

/-- `Response` from response_parser.go. -/
structure Response where
  SubHeader : String := ""
  NetworkNum : String := ""
  PCNum : String := ""
  UnitIONum : String := ""
  UnitStationNum : String := ""
  DataLen : String := ""
  EndCode : String := ""
  Payload : List Nat := []
  ErrInfo : List Nat := []
  deriving Repr, DecidableEq

/-- `parser_3E.Process` from response_parser.go. -/
def parser3E_Process (resp : List Nat) : Except String Response :=
  if resp.length < 22 then
    .error "length must be larger than 22 byte"
  else
    .ok { SubHeader := bytesToHex (listExtract 0 2 resp)
          NetworkNum := bytesToHex (listExtract 2 3 resp)
          PCNum := bytesToHex (listExtract 3 4 resp)
          UnitIONum := bytesToHex (listExtract 4 6 resp)
          UnitStationNum := bytesToHex (listExtract 6 7 resp)
          DataLen := bytesToHex (listExtract 7 9 resp)
          EndCode := bytesToHex (listExtract 9 11 resp)
          Payload := resp.drop 11 }

/-- `parser_1E.Process` from response_parser.go.  `resp[0]` and `resp[1]` are
scalars there, so their hex text is unpadded. -/
def parser1E_Process (resp : List Nat) : Except String Response :=
  if resp.length < 2 then
    .error "length must be larger than 2 bytes"
  else if resp.length = 2 then
    .error ("PLC returned an error code: " ++ bytesToHex (listExtract 0 2 resp))
  else
    .ok { SubHeader := natToHexNoPad (resp.getD 0 0)
          EndCode := natToHexNoPad (resp.getD 1 0)
          Payload := resp.drop 2 }

/-- The verification `client3E.HealthCheck` performs on the received bytes
`resp = readBuff[:readLen]` (the transport steps around it are out of the
embedding). -/
def healthCheckVerify (resp : List Nat) : Except String Unit :=
  if resp.length ≠ 18 then
    .error ("plc connect test is fail: return length is [" ++ bytesToHex resp ++ "]")
  else if bytesToHex (listExtract 11 13 resp) ≠ "0500" then
    .error ("plc connect test is fail: return header is [" ++ bytesToHex (listExtract 11 13 resp) ++ "]")
  else if bytesToHex (listExtract 13 18 resp) ≠ "4142434445" then
    .error ("plc connect test is fail: return body is [" ++ bytesToHex (listExtract 13 18 resp) ++ "]")
  else
    .ok ()

/-- Little-endian bytes of a nonnegative value, `k` bytes wide (spec-side
helper used to state what the emitted fields mean). -/
def natLEBytes (k : Nat) (v : Nat) : List Nat :=
  (List.range k).map (fun i => v / 256 ^ i % 256)

/-! ### Lemmas about the hex encoding -/

theorem bytesHexChars_append (l l' : List Nat) :
    bytesHexChars (l ++ l') = bytesHexChars l ++ bytesHexChars l' := by
  induction l with
  | nil => rfl
  | cons b t ih => simp [bytesHexChars, ih]

theorem bytesToHex_append (l l' : List Nat) :
    bytesToHex (l ++ l') = bytesToHex l ++ bytesToHex l' := by
  unfold bytesToHex
  rw [bytesHexChars_append]
  rfl

theorem bytesHexChars_length (l : List Nat) : (bytesHexChars l).length = 2 * l.length := by
  induction l with
  | nil => rfl
  | cons b t ih =>
    simp only [bytesHexChars, byteToHexChars, List.length_append, List.length_cons, ih]
    simp
    omega

theorem bytesToHex_length (l : List Nat) : (bytesToHex l).length = 2 * l.length :=
  bytesHexChars_length l

theorem offsetHexOf_length (off : Int) : (offsetHexOf off).length = 6 := rfl

theorem pointsHexOf_length (n : Int) : (pointsHexOf n).length = 4 := rfl

theorem dataLenHexOf_length (c : Nat) : (dataLenHexOf c).length = 4 := rfl

theorem SUB_HEADER_length : SUB_HEADER.length = 4 := rfl

theorem MONITORING_TIMER_length : MONITORING_TIMER.length = 4 := rfl

theorem READ_COMMAND_length : READ_COMMAND.length = 4 := rfl

theorem READ_SUB_COMMAND_length : READ_SUB_COMMAND.length = 4 := rfl

theorem BIT_READ_SUB_COMMAND_length : BIT_READ_SUB_COMMAND.length = 4 := rfl

theorem WRITE_COMMAND_length : WRITE_COMMAND.length = 4 := rfl

theorem WRITE_SUB_COMMAND_length : WRITE_SUB_COMMAND.length = 4 := rfl

theorem BIT_WRITE_SUB_COMMAND_length : BIT_WRITE_SUB_COMMAND.length = 4 := rfl

theorem deviceCodeOf_length_of_mem {dev : String} (h : dev ∈ DeviceCodes.map Prod.fst) :
    (deviceCodeOf dev).length = 2 := by
  simp [DeviceCodes] at h
  rcases h with h | h | h | h | h | h | h | h | h <;> subst h <;> rfl

theorem writeCap_ge (k : Nat) : k ≤ writeCap k := by
  unfold writeCap
  split
  · omega
  · exact Nat.le_max_left _ _

/-- The write helper on an in-capacity request, written out. -/
theorem station.buildWriteRequestHelper_eq_some (h : station) (dev : String)
    (off n : Int) (data : List Nat) (sub : String)
    (h0 : 0 ≤ 2 * n) (hcap : 2 * n ≤ (writeCap data.length : Int)) :
    h.buildWriteRequestHelper dev off n data sub = some
      (SUB_HEADER ++ h.networkNum ++ h.pcNum ++ h.unitIONum ++ h.unitStationNum ++
        dataLenHexOf ((MONITORING_TIMER ++ WRITE_COMMAND ++ WRITE_SUB_COMMAND ++
          deviceCodeOf dev ++ offsetHexOf off ++ pointsHexOf n ++ writeHexOf data n).length / 2) ++
        MONITORING_TIMER ++ WRITE_COMMAND ++ sub ++ offsetHexOf off ++ deviceCodeOf dev ++
        pointsHexOf n ++ writeHexOf data n) := by
  unfold station.buildWriteRequestHelper
  rw [if_pos ⟨h0, hcap⟩]

/-- The write helper on an out-of-bounds request (the Go slice expression
panics). -/
theorem station.buildWriteRequestHelper_eq_none (h : station) (dev : String)
    (off n : Int) (data : List Nat) (sub : String)
    (hc : ¬(0 ≤ 2 * n ∧ 2 * n ≤ (writeCap data.length : Int))) :
    h.buildWriteRequestHelper dev off n data sub = none := by
  unfold station.buildWriteRequestHelper
  rw [if_neg hc]

/-- Within the written data, `writeHex` is just the hex of the first
`2*numPoints` data bytes. -/
theorem writeHexOf_of_le (data : List Nat) (n : Int)
    (hlen : 2 * n ≤ (data.length : Int)) :
    writeHexOf data n = bytesToHex (data.take (2 * n).toNat) := by
  unfold writeHexOf
  rw [List.take_append_of_le_length (by omega)]

/-- Beyond the written data but within capacity, `writeHex` is the data
followed by the zero bytes of the fresh allocation. -/
theorem writeHexOf_of_ge (data : List Nat) (n : Int)
    (hlen : (data.length : Int) ≤ 2 * n) (hcap : 2 * n ≤ (writeCap data.length : Int)) :
    writeHexOf data n =
      bytesToHex (data ++ List.replicate ((2 * n).toNat - data.length) 0) := by
  unfold writeHexOf
  congr 1
  rw [List.take_append_eq_append_take, List.take_of_length_le (by omega), List.take_replicate]
  have hmin : ((2 * n).toNat - data.length) ⊓ (writeCap data.length - data.length) =
      (2 * n).toNat - data.length := by
    omega
  rw [hmin]

theorem mem_of_mem_listExtract {b i j : Nat} {l : List Nat}
    (h : b ∈ listExtract i j l) : b ∈ l :=
  List.mem_of_mem_drop (List.mem_of_mem_take h)

theorem hexDigit_inj : ∀ x < 16, ∀ y < 16, hexDigit x = hexDigit y → x = y := by decide

theorem byteToHexChars_inj {a b : Nat} (ha : a < 256) (hb : b < 256)
    (h : byteToHexChars a = byteToHexChars b) : a = b := by
  simp only [byteToHexChars, List.cons.injEq, and_true] at h
  obtain ⟨h1, h2⟩ := h
  have d1 : a / 16 = b / 16 := hexDigit_inj _ (by omega) _ (by omega) h1
  have d2 : a % 16 = b % 16 := hexDigit_inj _ (by omega) _ (by omega) h2
  omega

theorem bytesHexChars_inj : ∀ {l l' : List Nat}, (∀ b ∈ l, b < 256) → (∀ b ∈ l', b < 256) →
    bytesHexChars l = bytesHexChars l' → l = l' := by
  intro l
  induction l with
  | nil =>
    intro l' _ _ h
    cases l' with
    | nil => rfl
    | cons b t => simp [bytesHexChars, byteToHexChars] at h
  | cons b t ih =>
    intro l' hl hl' h
    cases l' with
    | nil => simp [bytesHexChars, byteToHexChars] at h
    | cons b' t' =>
      simp only [bytesHexChars] at h
      obtain ⟨hhd, htl⟩ := List.append_inj h (by simp [byteToHexChars])
      have hb : b = b' :=
        byteToHexChars_inj (hl b (List.mem_cons_self b t)) (hl' b' (List.mem_cons_self b' t')) hhd
      have ht : t = t' :=
        ih (fun x hx => hl x (List.mem_cons_of_mem b hx))
          (fun x hx => hl' x (List.mem_cons_of_mem b' hx)) htl
      rw [hb, ht]

theorem bytesToHex_inj {l l' : List Nat} (hl : ∀ b ∈ l, b < 256) (hl' : ∀ b ∈ l', b < 256)
    (h : bytesToHex l = bytesToHex l') : l = l' := by
  apply bytesHexChars_inj hl hl'
  simpa [bytesToHex] using congrArg String.data h

/-! ### Claim theorems -/

/-- C1: `parser_3E.Process` rejects any buffer shorter than 22 bytes with the
length error and, for any buffer of at least 22 bytes, returns without error —
regardless of the end-code value — the response whose fields are the hex text
of the fixed ranges `[0:2) [2:3) [3:4) [4:6) [6:7) [7:9) [9:11)` and whose
payload is `resp[11:]`. -/
theorem C1_parser3E_fixed_ranges (resp : List Nat) :
    (resp.length < 22 → parser3E_Process resp = .error "length must be larger than 22 byte") ∧
    (22 ≤ resp.length →
      parser3E_Process resp = .ok
        { SubHeader := bytesToHex (listExtract 0 2 resp)
          NetworkNum := bytesToHex (listExtract 2 3 resp)
          PCNum := bytesToHex (listExtract 3 4 resp)
          UnitIONum := bytesToHex (listExtract 4 6 resp)
          UnitStationNum := bytesToHex (listExtract 6 7 resp)
          DataLen := bytesToHex (listExtract 7 9 resp)
          EndCode := bytesToHex (listExtract 9 11 resp)
          Payload := resp.drop 11 }) := by
  constructor
  · intro h
    unfold parser3E_Process
    rw [if_pos h]
  · intro h
    unfold parser3E_Process
    rw [if_neg (by omega)]

/-- Witness for C1, at a 22-byte buffer with a non-zero end code (parsed with
no error) and at a 3-byte buffer (length error). -/
theorem C1_parser3E_fixed_ranges_witness :
    parser3E_Process (List.replicate 9 0 ++ [1, 2] ++ List.replicate 11 7) = .ok
      { SubHeader := "0000", NetworkNum := "00", PCNum := "00", UnitIONum := "0000",
        UnitStationNum := "00", DataLen := "0000", EndCode := "0102",
        Payload := List.replicate 11 7 } ∧
    parser3E_Process [1, 2, 3] = .error "length must be larger than 22 byte" := by
  constructor
  · have h := (C1_parser3E_fixed_ranges (List.replicate 9 0 ++ [1, 2] ++ List.replicate 11 7)).2
      (by decide)
    rw [h]
    exact congrArg Except.ok (by decide)
  · exact (C1_parser3E_fixed_ranges [1, 2, 3]).1 (by decide)

/-- C5 counterexample: on the 22-byte all-zero buffer (end-code bytes zero)
the ThreeE parser succeeds but the payload is the 11 bytes `resp[11:22)`,
not empty as the claim states. -/
theorem C5_counterexample :
    parser3E_Process (List.replicate 22 0) =
      .ok { SubHeader := "0000", NetworkNum := "00", PCNum := "00", UnitIONum := "0000",
            UnitStationNum := "00", DataLen := "0000", EndCode := "0000",
            Payload := List.replicate 11 0 } ∧
    List.replicate 11 (0 : Nat) ≠ [] := by
  constructor
  · unfold parser3E_Process
    rw [if_neg (by decide)]
    exact congrArg Except.ok (by decide)
  · decide

/-- C5 (amended): the ThreeE parser on a buffer of exactly 22 bytes whose
end-code bytes are zero returns, with no error, a response whose end code is
`"0000"` and whose payload is the 11 bytes `resp[11:]` (so it is not empty);
a 21-byte buffer yields the length error. -/
theorem C5_amended_22_byte_buffer (resp : List Nat) :
    (resp.length = 22 → listExtract 9 11 resp = [0, 0] →
      ∃ r, parser3E_Process resp = .ok r ∧ r.EndCode = "0000" ∧
        r.Payload = resp.drop 11 ∧ r.Payload.length = 11) ∧
    (resp.length = 21 → parser3E_Process resp = .error "length must be larger than 22 byte") := by
  constructor
  · intro h1 h2
    refine ⟨{ SubHeader := bytesToHex (listExtract 0 2 resp)
              NetworkNum := bytesToHex (listExtract 2 3 resp)
              PCNum := bytesToHex (listExtract 3 4 resp)
              UnitIONum := bytesToHex (listExtract 4 6 resp)
              UnitStationNum := bytesToHex (listExtract 6 7 resp)
              DataLen := bytesToHex (listExtract 7 9 resp)
              EndCode := bytesToHex (listExtract 9 11 resp)
              Payload := resp.drop 11 }, ?_, ?_, rfl, ?_⟩
    · unfold parser3E_Process
      rw [if_neg (by omega)]
    · show bytesToHex (listExtract 9 11 resp) = "0000"
      rw [h2]
      rfl
    · show (resp.drop 11).length = 11
      simp [h1]
  · intro h1
    unfold parser3E_Process
    rw [if_pos (by omega)]

/-- Witness for C5 (amended), at the 22-byte and the 21-byte all-zero buffers. -/
theorem C5_amended_22_byte_buffer_witness :
    (∃ r, parser3E_Process (List.replicate 22 0) = .ok r ∧ r.EndCode = "0000" ∧
      r.Payload = List.drop 11 (List.replicate 22 0) ∧ r.Payload.length = 11) ∧
    parser3E_Process (List.replicate 21 0) = .error "length must be larger than 22 byte" :=
  ⟨(C5_amended_22_byte_buffer (List.replicate 22 0)).1 (by decide) (by decide),
   (C5_amended_22_byte_buffer (List.replicate 21 0)).2 (by decide)⟩

/-- C6 counterexample: on the 3-byte buffer `{0x5A, 0x00, 0xFF}` the OneE
parser returns `EndCode = "0"` — Go's `%X` of the scalar byte `resp[1]` is
unpadded — not the `"00"` the claim states. -/
theorem C6_counterexample :
    parser1E_Process [90, 0, 255] =
      .ok { SubHeader := "5A", EndCode := "0", Payload := [255] } ∧
    ("0" : String) ≠ "00" := by
  constructor
  · unfold parser1E_Process
    rw [if_neg (by decide), if_neg (by decide)]
    exact congrArg Except.ok (by decide)
  · decide

/-- C6 (amended): the OneE parser requires at least 2 bytes; on exactly 2
bytes it fails with an error carrying the hex of the 2-byte PLC code; on any
longer buffer it returns `subHeader` and `endCode` as the unpadded hex text of
`resp[0]` and `resp[1]` (so byte `0x00` gives `"0"`, not `"00"`) and payload
`resp[2:]`. -/
theorem C6_amended_parser1E (resp : List Nat) :
    (resp.length < 2 → parser1E_Process resp = .error "length must be larger than 2 bytes") ∧
    (resp.length = 2 →
      parser1E_Process resp = .error ("PLC returned an error code: " ++ bytesToHex resp)) ∧
    (3 ≤ resp.length →
      parser1E_Process resp = .ok
        { SubHeader := natToHexNoPad (resp.getD 0 0)
          EndCode := natToHexNoPad (resp.getD 1 0)
          Payload := resp.drop 2 }) := by
  refine ⟨?_, ?_, ?_⟩
  · intro h
    unfold parser1E_Process
    rw [if_pos h]
  · intro h
    unfold parser1E_Process
    rw [if_neg (by omega), if_pos h]
    have : listExtract 0 2 resp = resp := by
      unfold listExtract
      simpa using List.take_of_length_le (by omega)
    rw [this]
  · intro h
    unfold parser1E_Process
    rw [if_neg (by omega), if_neg (by omega)]

/-- Witness for C6 (amended), at a 1-byte, the 2-byte `{0x12, 0x34}` and the
3-byte `{0x5A, 0x00, 0xFF}` buffers. -/
theorem C6_amended_parser1E_witness :
    parser1E_Process [7] = .error "length must be larger than 2 bytes" ∧
    parser1E_Process [18, 52] = .error ("PLC returned an error code: " ++ bytesToHex [18, 52]) ∧
    parser1E_Process [90, 0, 255] = .ok
      { SubHeader := natToHexNoPad ([90, 0, 255].getD 0 0)
        EndCode := natToHexNoPad ([90, 0, 255].getD 1 0)
        Payload := [90, 0, 255].drop 2 } :=
  ⟨(C6_amended_parser1E [7]).1 (by decide),
   (C6_amended_parser1E [18, 52]).2.1 (by decide),
   (C6_amended_parser1E [90, 0, 255]).2.2 (by decide)⟩

/-- C7 counterexample: at the local station, `BuildReadRequest "D" 100 1`
decodes to 21 bytes, not the 25 the claim's sum
`11 + 2 + 2 + 2 + 2 + 3 + 1 + 2` gives (the request header before `dataLen`
is 7 bytes, not 11). -/
theorem C7_counterexample :
    (NewLocalStation.BuildReadRequest "D" 100 1).length / 2 = 21 ∧ (21 : Nat) ≠ 25 := by
  constructor
  · decide
  · decide

/-- C7 (amended): for every station whose identity fields have the documented
hex-text widths and every registered device letter, `BuildReadRequest` yields
a string whose decoded byte length is
`7 (header) + 2 (dataLen) + 2 (timer) + 2 (cmd) + 2 (subcmd) + 3 (offset) +
1 (devicecode) + 2 (points) = 21`. -/
theorem C7_amended_read_frame_length (h : station) (dev : String) (off n : Int)
    (hnet : h.networkNum.length = 2) (hpc : h.pcNum.length = 2)
    (hio : h.unitIONum.length = 4) (hstn : h.unitStationNum.length = 2)
    (hdev : dev ∈ DeviceCodes.map Prod.fst) :
    (h.BuildReadRequest dev off n).length = 2 * (7 + 2 + 2 + 2 + 2 + 3 + 1 + 2) := by
  simp only [station.BuildReadRequest, station.buildReadRequestHelper, String.length_append,
    SUB_HEADER_length, MONITORING_TIMER_length, READ_COMMAND_length, READ_SUB_COMMAND_length,
    offsetHexOf_length, pointsHexOf_length, dataLenHexOf_length, hnet, hpc, hio, hstn,
    deviceCodeOf_length_of_mem hdev]

/-- Witness for C7 (amended), at the local station and device `D`. -/
theorem C7_amended_read_frame_length_witness :
    (NewLocalStation.BuildReadRequest "D" 100 1).length = 2 * (7 + 2 + 2 + 2 + 2 + 3 + 1 + 2) :=
  C7_amended_read_frame_length NewLocalStation "D" 100 1 rfl rfl rfl rfl (by decide)

/-- C3: `offsetHex` — the offset field every builder emits — is the hex text
of the low 3 bytes of the little-endian `int64` serialisation of `offset`,
i.e. of `offset mod 2^24` in little-endian; the point-count field is the hex
text of `numPoints mod 2^16` in little-endian; and
`BuildReadRequest "D" 100 1` at the local station contains the offset hex
`"640000"` immediately followed by the device code `"A8"` verbatim. -/
theorem C3_offset_mod_2_pow_24 :
    (∀ offset : Int,
      offsetHexOf offset = bytesToHex (natLEBytes 3 ((offset % ((2 : Int) ^ 24)).toNat))) ∧
    (∀ numPoints : Int,
      pointsHexOf numPoints = bytesToHex (natLEBytes 2 ((numPoints % ((2 : Int) ^ 16)).toNat))) ∧
    NewLocalStation.BuildReadRequest "D" 100 1 =
      "500000FFFF03000C001000" ++ "0104" ++ "0000" ++ "640000" ++ "A8" ++ "0100" := by
  refine ⟨?_, ?_, by decide⟩
  · intro offset
    apply congrArg bytesToHex
    have key : (offset % ((2 : Int) ^ 24)).toNat = u64 offset % 2 ^ 24 := by
      unfold u64
      have h1 : offset % ((2 : Int) ^ 24) = offset % 2 ^ 64 % 2 ^ 24 :=
        (Int.emod_emod_of_dvd offset (by norm_num)).symm
      rw [h1]
      have h2 : (0 : Int) ≤ offset % 2 ^ 64 := Int.emod_nonneg _ (by norm_num)
      omega
    show [u64 offset % 256, u64 offset / 2 ^ 8 % 256, u64 offset / 2 ^ 16 % 256] = _
    have : natLEBytes 3 (u64 offset % 2 ^ 24) =
        [u64 offset % 2 ^ 24 / 1 % 256, u64 offset % 2 ^ 24 / 256 % 256,
         u64 offset % 2 ^ 24 / 65536 % 256] := rfl
    rw [key, this]
    refine List.cons_eq_cons.mpr ⟨by omega, List.cons_eq_cons.mpr ⟨by omega,
      List.cons_eq_cons.mpr ⟨by omega, rfl⟩⟩⟩
  · intro numPoints
    apply congrArg bytesToHex
    have key : (numPoints % ((2 : Int) ^ 16)).toNat = u64 numPoints % 2 ^ 16 := by
      unfold u64
      have h1 : numPoints % ((2 : Int) ^ 16) = numPoints % 2 ^ 64 % 2 ^ 16 :=
        (Int.emod_emod_of_dvd numPoints (by norm_num)).symm
      rw [h1]
      have h2 : (0 : Int) ≤ numPoints % 2 ^ 64 := Int.emod_nonneg _ (by norm_num)
      omega
    show [u64 numPoints % 256, u64 numPoints / 2 ^ 8 % 256] = _
    have : natLEBytes 2 (u64 numPoints % 2 ^ 16) =
        [u64 numPoints % 2 ^ 16 / 1 % 256, u64 numPoints % 2 ^ 16 / 256 % 256] := rfl
    rw [key, this]
    refine List.cons_eq_cons.mpr ⟨by omega, List.cons_eq_cons.mpr ⟨by omega, rfl⟩⟩

/-- C2: every frame any builder returns is the station header followed by a
`dataLen` field that hex-encodes, as a 2-byte little-endian value, half the
character count of everything from `monitorTimer` through the end of the
frame — recomputed per request, so it grows with the write payload. -/
theorem C2_dataLength_half_tail (h : station) (dev : String) (off n : Int) :
    (h.BuildHealthCheckRequest =
      (SUB_HEADER ++ h.networkNum ++ h.pcNum ++ h.unitIONum ++ h.unitStationNum) ++
      dataLenHexOf ((MONITORING_TIMER ++ HEALTH_CHECK_COMMAND ++ HEALTH_CHECK_SUBCOMMAND ++
        "0500" ++ "4142434445").length / 2) ++
      (MONITORING_TIMER ++ HEALTH_CHECK_COMMAND ++ HEALTH_CHECK_SUBCOMMAND ++
        "0500" ++ "4142434445")) ∧
    (h.BuildReadRequest dev off n =
      (SUB_HEADER ++ h.networkNum ++ h.pcNum ++ h.unitIONum ++ h.unitStationNum) ++
      dataLenHexOf ((MONITORING_TIMER ++ READ_COMMAND ++ READ_SUB_COMMAND ++ offsetHexOf off ++
        deviceCodeOf dev ++ pointsHexOf n).length / 2) ++
      (MONITORING_TIMER ++ READ_COMMAND ++ READ_SUB_COMMAND ++ offsetHexOf off ++
        deviceCodeOf dev ++ pointsHexOf n)) ∧
    (h.BuildBitReadRequest dev off n =
      (SUB_HEADER ++ h.networkNum ++ h.pcNum ++ h.unitIONum ++ h.unitStationNum) ++
      dataLenHexOf ((MONITORING_TIMER ++ READ_COMMAND ++ BIT_READ_SUB_COMMAND ++ offsetHexOf off ++
        deviceCodeOf dev ++ pointsHexOf n).length / 2) ++
      (MONITORING_TIMER ++ READ_COMMAND ++ BIT_READ_SUB_COMMAND ++ offsetHexOf off ++
        deviceCodeOf dev ++ pointsHexOf n)) ∧
    (∀ (data : List Nat) (s : String), h.BuildWriteRequest dev off n data = some s →
      s = (SUB_HEADER ++ h.networkNum ++ h.pcNum ++ h.unitIONum ++ h.unitStationNum) ++
        dataLenHexOf ((MONITORING_TIMER ++ WRITE_COMMAND ++ WRITE_SUB_COMMAND ++ offsetHexOf off ++
          deviceCodeOf dev ++ pointsHexOf n ++ writeHexOf data n).length / 2) ++
        (MONITORING_TIMER ++ WRITE_COMMAND ++ WRITE_SUB_COMMAND ++ offsetHexOf off ++
          deviceCodeOf dev ++ pointsHexOf n ++ writeHexOf data n)) ∧
    (∀ (data : List Nat) (s : String), h.BuildBitWriteRequest dev off n data = some s →
      s = (SUB_HEADER ++ h.networkNum ++ h.pcNum ++ h.unitIONum ++ h.unitStationNum) ++
        dataLenHexOf ((MONITORING_TIMER ++ WRITE_COMMAND ++ BIT_WRITE_SUB_COMMAND ++ offsetHexOf off ++
          deviceCodeOf dev ++ pointsHexOf n ++ writeHexOf data n).length / 2) ++
        (MONITORING_TIMER ++ WRITE_COMMAND ++ BIT_WRITE_SUB_COMMAND ++ offsetHexOf off ++
          deviceCodeOf dev ++ pointsHexOf n ++ writeHexOf data n)) := by
  refine ⟨?_, ?_, ?_, ?_, ?_⟩
  · simp only [station.BuildHealthCheckRequest]
    have harg : (MONITORING_TIMER ++ (HEALTH_CHECK_COMMAND ++ HEALTH_CHECK_SUBCOMMAND ++
        "0500" ++ "4142434445")).length =
        (MONITORING_TIMER ++ HEALTH_CHECK_COMMAND ++ HEALTH_CHECK_SUBCOMMAND ++
        "0500" ++ "4142434445").length := by
      simp only [String.length_append]
      omega
    rw [harg]
    simp only [String.append_assoc]
  · simp only [station.BuildReadRequest, station.buildReadRequestHelper]
    have harg : (MONITORING_TIMER ++ READ_COMMAND ++ READ_SUB_COMMAND ++ deviceCodeOf dev ++
        offsetHexOf off ++ pointsHexOf n).length =
        (MONITORING_TIMER ++ READ_COMMAND ++ READ_SUB_COMMAND ++ offsetHexOf off ++
        deviceCodeOf dev ++ pointsHexOf n).length := by
      simp only [String.length_append]
      omega
    rw [harg]
    simp only [String.append_assoc]
  · simp only [station.BuildBitReadRequest, station.buildReadRequestHelper]
    have harg : (MONITORING_TIMER ++ READ_COMMAND ++ READ_SUB_COMMAND ++ deviceCodeOf dev ++
        offsetHexOf off ++ pointsHexOf n).length =
        (MONITORING_TIMER ++ READ_COMMAND ++ BIT_READ_SUB_COMMAND ++ offsetHexOf off ++
        deviceCodeOf dev ++ pointsHexOf n).length := by
      simp only [String.length_append, READ_SUB_COMMAND_length, BIT_READ_SUB_COMMAND_length]
      omega
    rw [harg]
    simp only [String.append_assoc]
  · intro data s hs
    unfold station.BuildWriteRequest station.buildWriteRequestHelper at hs
    by_cases hc : 0 ≤ 2 * n ∧ 2 * n ≤ (writeCap data.length : Int)
    · rw [if_pos hc] at hs
      have hs' := Option.some.inj hs
      rw [← hs']
      have harg : (MONITORING_TIMER ++ WRITE_COMMAND ++ WRITE_SUB_COMMAND ++ deviceCodeOf dev ++
          offsetHexOf off ++ pointsHexOf n ++ writeHexOf data n).length =
          (MONITORING_TIMER ++ WRITE_COMMAND ++ WRITE_SUB_COMMAND ++ offsetHexOf off ++
          deviceCodeOf dev ++ pointsHexOf n ++ writeHexOf data n).length := by
        simp only [String.length_append]
        omega
      rw [harg]
      simp only [String.append_assoc]
    · rw [if_neg hc] at hs
      exact absurd hs (by simp)
  · intro data s hs
    unfold station.BuildBitWriteRequest station.buildWriteRequestHelper at hs
    by_cases hc : 0 ≤ 2 * n ∧ 2 * n ≤ (writeCap data.length : Int)
    · rw [if_pos hc] at hs
      have hs' := Option.some.inj hs
      rw [← hs']
      have harg : (MONITORING_TIMER ++ WRITE_COMMAND ++ WRITE_SUB_COMMAND ++ deviceCodeOf dev ++
          offsetHexOf off ++ pointsHexOf n ++ writeHexOf data n).length =
          (MONITORING_TIMER ++ WRITE_COMMAND ++ BIT_WRITE_SUB_COMMAND ++ offsetHexOf off ++
          deviceCodeOf dev ++ pointsHexOf n ++ writeHexOf data n).length := by
        simp only [String.length_append, WRITE_SUB_COMMAND_length, BIT_WRITE_SUB_COMMAND_length]
        omega
      rw [harg]
      simp only [String.append_assoc]
    · rw [if_neg hc] at hs
      exact absurd hs (by simp)

/-- Witness for C2, at the local station: the health-check frame, a read
frame and a concrete write frame (5 data bytes, 2 points). -/
theorem C2_dataLength_half_tail_witness :
    NewLocalStation.BuildHealthCheckRequest =
      (SUB_HEADER ++ NewLocalStation.networkNum ++ NewLocalStation.pcNum ++
        NewLocalStation.unitIONum ++ NewLocalStation.unitStationNum) ++
      dataLenHexOf ((MONITORING_TIMER ++ HEALTH_CHECK_COMMAND ++ HEALTH_CHECK_SUBCOMMAND ++
        "0500" ++ "4142434445").length / 2) ++
      (MONITORING_TIMER ++ HEALTH_CHECK_COMMAND ++ HEALTH_CHECK_SUBCOMMAND ++
        "0500" ++ "4142434445") ∧
    "500000FFFF03001000100001140000640000A8020001020304" =
      (SUB_HEADER ++ NewLocalStation.networkNum ++ NewLocalStation.pcNum ++
        NewLocalStation.unitIONum ++ NewLocalStation.unitStationNum) ++
      dataLenHexOf ((MONITORING_TIMER ++ WRITE_COMMAND ++ WRITE_SUB_COMMAND ++ offsetHexOf 100 ++
        deviceCodeOf "D" ++ pointsHexOf 2 ++ writeHexOf [1, 2, 3, 4, 5] 2).length / 2) ++
      (MONITORING_TIMER ++ WRITE_COMMAND ++ WRITE_SUB_COMMAND ++ offsetHexOf 100 ++
        deviceCodeOf "D" ++ pointsHexOf 2 ++ writeHexOf [1, 2, 3, 4, 5] 2) :=
  ⟨(C2_dataLength_half_tail NewLocalStation "D" 100 2).1,
   (C2_dataLength_half_tail NewLocalStation "D" 100 2).2.2.2.1 [1, 2, 3, 4, 5]
     "500000FFFF03001000100001140000640000A8020001020304" (by decide)⟩

/-- C4: with `numPoints ≥ 0` and at least `2*numPoints` bytes of data, the
write builders emit exactly the hex of the first `2*numPoints` data bytes as
the frame's trailing hex, so the result does not depend on any extra trailing
bytes. -/
theorem C4_write_payload_truncation (h : station) (dev : String) (off n : Int)
    (data : List Nat) (hn : 0 ≤ n) (hlen : 2 * n ≤ (data.length : Int)) :
    h.BuildWriteRequest dev off n data =
      h.BuildWriteRequest dev off n (data.take (2 * n).toNat) ∧
    h.BuildBitWriteRequest dev off n data =
      h.BuildBitWriteRequest dev off n (data.take (2 * n).toNat) ∧
    (∃ pre, h.BuildWriteRequest dev off n data =
      some (pre ++ bytesToHex (data.take (2 * n).toNat))) := by
  have h0 : 0 ≤ 2 * n := by omega
  have hcap1 : 2 * n ≤ (writeCap data.length : Int) := by
    have := writeCap_ge data.length
    omega
  have hlen2 : 2 * n ≤ ((data.take (2 * n).toNat).length : Int) := by
    simp only [List.length_take]
    omega
  have hcap2 : 2 * n ≤ (writeCap (data.take (2 * n).toNat).length : Int) := by
    have := writeCap_ge (data.take (2 * n).toNat).length
    omega
  have hw1 : writeHexOf data n = bytesToHex (data.take (2 * n).toNat) :=
    writeHexOf_of_le data n hlen
  have hw2 : writeHexOf (data.take (2 * n).toNat) n = bytesToHex (data.take (2 * n).toNat) := by
    rw [writeHexOf_of_le _ n hlen2, List.take_take]
    simp
  refine ⟨?_, ?_, ?_⟩
  · unfold station.BuildWriteRequest
    rw [station.buildWriteRequestHelper_eq_some h dev off n data _ h0 hcap1,
      station.buildWriteRequestHelper_eq_some h dev off n _ _ h0 hcap2, hw1, hw2]
  · unfold station.BuildBitWriteRequest
    rw [station.buildWriteRequestHelper_eq_some h dev off n data _ h0 hcap1,
      station.buildWriteRequestHelper_eq_some h dev off n _ _ h0 hcap2, hw1, hw2]
  · refine ⟨SUB_HEADER ++ h.networkNum ++ h.pcNum ++ h.unitIONum ++ h.unitStationNum ++
      dataLenHexOf ((MONITORING_TIMER ++ WRITE_COMMAND ++ WRITE_SUB_COMMAND ++
        deviceCodeOf dev ++ offsetHexOf off ++ pointsHexOf n ++ writeHexOf data n).length / 2) ++
      MONITORING_TIMER ++ WRITE_COMMAND ++ WRITE_SUB_COMMAND ++ offsetHexOf off ++
      deviceCodeOf dev ++ pointsHexOf n, ?_⟩
    unfold station.BuildWriteRequest
    rw [station.buildWriteRequestHelper_eq_some h dev off n data _ h0 hcap1, hw1]

/-- Witness for C4, at the local station, device `D`, offset 100, 2 points
and 5 data bytes (one byte beyond the 4 that are emitted). -/
theorem C4_write_payload_truncation_witness :
    NewLocalStation.BuildWriteRequest "D" 100 2 [1, 2, 3, 4, 5] =
      NewLocalStation.BuildWriteRequest "D" 100 2 ([1, 2, 3, 4, 5].take (2 * (2 : Int)).toNat) ∧
    NewLocalStation.BuildBitWriteRequest "D" 100 2 [1, 2, 3, 4, 5] =
      NewLocalStation.BuildBitWriteRequest "D" 100 2 ([1, 2, 3, 4, 5].take (2 * (2 : Int)).toNat) ∧
    (∃ pre, NewLocalStation.BuildWriteRequest "D" 100 2 [1, 2, 3, 4, 5] =
      some (pre ++ bytesToHex ([1, 2, 3, 4, 5].take (2 * (2 : Int)).toNat))) :=
  C4_write_payload_truncation NewLocalStation "D" 100 2 [1, 2, 3, 4, 5] (by decide) (by decide)

/-- C9: an unregistered device name yields no error from the frame builders:
the empty device code is substituted silently, the emitted frame omits the
device-code byte, and at the local station the read frame decodes to 20
bytes instead of the documented 21. -/
theorem C9_unknown_device_silent (dev : String) (hdev : dev ∉ DeviceCodes.map Prod.fst) :
    deviceCodeOf dev = "" ∧
    (∀ (h : station) (off n : Int),
      h.BuildReadRequest dev off n =
        SUB_HEADER ++ h.networkNum ++ h.pcNum ++ h.unitIONum ++ h.unitStationNum ++
        dataLenHexOf 11 ++ MONITORING_TIMER ++ READ_COMMAND ++ READ_SUB_COMMAND ++
        offsetHexOf off ++ pointsHexOf n) ∧
    (∀ (h : station) (off n : Int),
      h.BuildBitReadRequest dev off n =
        SUB_HEADER ++ h.networkNum ++ h.pcNum ++ h.unitIONum ++ h.unitStationNum ++
        dataLenHexOf 11 ++ MONITORING_TIMER ++ READ_COMMAND ++ BIT_READ_SUB_COMMAND ++
        offsetHexOf off ++ pointsHexOf n) ∧
    (∀ (h : station) (off n : Int) (data : List Nat), 0 ≤ n → 2 * n ≤ (data.length : Int) →
      h.BuildWriteRequest dev off n data =
        some (SUB_HEADER ++ h.networkNum ++ h.pcNum ++ h.unitIONum ++ h.unitStationNum ++
          dataLenHexOf ((22 + (writeHexOf data n).length) / 2) ++ MONITORING_TIMER ++
          WRITE_COMMAND ++ WRITE_SUB_COMMAND ++ offsetHexOf off ++ pointsHexOf n ++
          writeHexOf data n)) ∧
    (∀ (h : station) (off n : Int) (data : List Nat), 0 ≤ n → 2 * n ≤ (data.length : Int) →
      h.BuildBitWriteRequest dev off n data =
        some (SUB_HEADER ++ h.networkNum ++ h.pcNum ++ h.unitIONum ++ h.unitStationNum ++
          dataLenHexOf ((22 + (writeHexOf data n).length) / 2) ++ MONITORING_TIMER ++
          WRITE_COMMAND ++ BIT_WRITE_SUB_COMMAND ++ offsetHexOf off ++ pointsHexOf n ++
          writeHexOf data n)) ∧
    (∀ (off n : Int), (NewLocalStation.BuildReadRequest dev off n).length / 2 = 20) := by
  have hdc : deviceCodeOf dev = "" := by
    simp [DeviceCodes] at hdev
    obtain ⟨h1, h2, h3, h4, h5, h6, h7, h8, h9⟩ := hdev
    simp [deviceCodeOf, DeviceCodes, List.lookup,
      beq_eq_false_iff_ne.mpr h1, beq_eq_false_iff_ne.mpr h2, beq_eq_false_iff_ne.mpr h3,
      beq_eq_false_iff_ne.mpr h4, beq_eq_false_iff_ne.mpr h5, beq_eq_false_iff_ne.mpr h6,
      beq_eq_false_iff_ne.mpr h7, beq_eq_false_iff_ne.mpr h8, beq_eq_false_iff_ne.mpr h9]
  refine ⟨hdc, ?_, ?_, ?_, ?_, ?_⟩
  · intro h off n
    simp only [station.BuildReadRequest, station.buildReadRequestHelper, hdc,
      String.append_empty]
    have harg : (MONITORING_TIMER ++ READ_COMMAND ++ READ_SUB_COMMAND ++ offsetHexOf off ++
        pointsHexOf n).length / 2 = 11 := by
      simp only [String.length_append, MONITORING_TIMER_length, READ_COMMAND_length,
        READ_SUB_COMMAND_length, offsetHexOf_length, pointsHexOf_length]
    rw [harg]
  · intro h off n
    simp only [station.BuildBitReadRequest, station.buildReadRequestHelper, hdc,
      String.append_empty]
    have harg : (MONITORING_TIMER ++ READ_COMMAND ++ READ_SUB_COMMAND ++ offsetHexOf off ++
        pointsHexOf n).length / 2 = 11 := by
      simp only [String.length_append, MONITORING_TIMER_length, READ_COMMAND_length,
        READ_SUB_COMMAND_length, offsetHexOf_length, pointsHexOf_length]
    rw [harg]
  · intro h off n data hn hlen
    have h0 : 0 ≤ 2 * n := by omega
    have hcap : 2 * n ≤ (writeCap data.length : Int) := by
      have := writeCap_ge data.length
      omega
    unfold station.BuildWriteRequest
    rw [station.buildWriteRequestHelper_eq_some h dev off n data _ h0 hcap]
    simp only [hdc, String.append_empty]
    have harg : (MONITORING_TIMER ++ WRITE_COMMAND ++ WRITE_SUB_COMMAND ++ offsetHexOf off ++
        pointsHexOf n ++ writeHexOf data n).length / 2 =
        (22 + (writeHexOf data n).length) / 2 := by
      simp only [String.length_append, MONITORING_TIMER_length, WRITE_COMMAND_length,
        WRITE_SUB_COMMAND_length, offsetHexOf_length, pointsHexOf_length]
    rw [harg]
  · intro h off n data hn hlen
    have h0 : 0 ≤ 2 * n := by omega
    have hcap : 2 * n ≤ (writeCap data.length : Int) := by
      have := writeCap_ge data.length
      omega
    unfold station.BuildBitWriteRequest
    rw [station.buildWriteRequestHelper_eq_some h dev off n data _ h0 hcap]
    simp only [hdc, String.append_empty]
    have harg : (MONITORING_TIMER ++ WRITE_COMMAND ++ WRITE_SUB_COMMAND ++ offsetHexOf off ++
        pointsHexOf n ++ writeHexOf data n).length / 2 =
        (22 + (writeHexOf data n).length) / 2 := by
      simp only [String.length_append, MONITORING_TIMER_length, WRITE_COMMAND_length,
        WRITE_SUB_COMMAND_length, offsetHexOf_length, pointsHexOf_length]
    rw [harg]
  · intro off n
    simp only [station.BuildReadRequest, station.buildReadRequestHelper, hdc,
      String.append_empty, String.length_append, SUB_HEADER_length, MONITORING_TIMER_length,
      READ_COMMAND_length, READ_SUB_COMMAND_length, offsetHexOf_length, pointsHexOf_length,
      dataLenHexOf_length]
    decide

/-- Witness for C9, at the unregistered device name `Z`. -/
theorem C9_unknown_device_silent_witness :
    deviceCodeOf "Z" = "" ∧
    NewLocalStation.BuildReadRequest "Z" 0 1 =
      SUB_HEADER ++ NewLocalStation.networkNum ++ NewLocalStation.pcNum ++
      NewLocalStation.unitIONum ++ NewLocalStation.unitStationNum ++
      dataLenHexOf 11 ++ MONITORING_TIMER ++ READ_COMMAND ++ READ_SUB_COMMAND ++
      offsetHexOf 0 ++ pointsHexOf 1 ∧
    NewLocalStation.BuildBitWriteRequest "Z" 0 1 [1, 2] =
      some (SUB_HEADER ++ NewLocalStation.networkNum ++ NewLocalStation.pcNum ++
        NewLocalStation.unitIONum ++ NewLocalStation.unitStationNum ++
        dataLenHexOf ((22 + (writeHexOf [1, 2] 1).length) / 2) ++ MONITORING_TIMER ++
        WRITE_COMMAND ++ BIT_WRITE_SUB_COMMAND ++ offsetHexOf 0 ++ pointsHexOf 1 ++
        writeHexOf [1, 2] 1) ∧
    (NewLocalStation.BuildReadRequest "Z" 0 1).length / 2 = 20 :=
  ⟨(C9_unknown_device_silent "Z" (by decide)).1,
   (C9_unknown_device_silent "Z" (by decide)).2.1 NewLocalStation 0 1,
   (C9_unknown_device_silent "Z" (by decide)).2.2.2.2.1 NewLocalStation 0 1 [1, 2]
     (by decide) (by decide),
   (C9_unknown_device_silent "Z" (by decide)).2.2.2.2.2 0 1⟩

/-- C10 counterexample: `BuildWriteRequest`'s helper with 2 points and only 2
data bytes does not panic — `2*numPoints = 4` is within the 64-byte capacity
of the freshly allocated write buffer, so a frame is returned, padded with
the buffer's zero bytes. -/
theorem C10_counterexample :
    NewLocalStation.buildWriteRequestHelper "D" 0 2 [1, 2] WRITE_SUB_COMMAND =
      some "500000FFFF03001000100001140000000000A8020001020000" ∧
    NewLocalStation.buildWriteRequestHelper "D" 0 2 [1, 2] WRITE_SUB_COMMAND ≠ none := by
  constructor
  · decide
  · decide

/-- C10 (amended): the write helper is total under the precondition
`numPoints ≥ 0` and `len(writeData) ≥ 2*numPoints` (every slice in bounds);
it panics — returns no frame — when `numPoints` is negative, or when, for
`writeData` of at most 64 bytes (where the buffer capacity is exactly
`writeCap`), `2*numPoints` exceeds that capacity; and a `writeData` shorter
than `2*numPoints` but within capacity yields a frame whose trailing hex is
the data padded with the buffer's zero bytes rather than a panic. -/
theorem C10_amended_write_bounds (h : station) (dev : String) (off n : Int)
    (data : List Nat) (sub : String) :
    (0 ≤ n → 2 * n ≤ (data.length : Int) →
      ∃ s, h.buildWriteRequestHelper dev off n data sub = some s) ∧
    (n < 0 → h.buildWriteRequestHelper dev off n data sub = none) ∧
    (data.length ≤ 64 → (writeCap data.length : Int) < 2 * n →
      h.buildWriteRequestHelper dev off n data sub = none) ∧
    (0 ≤ n → (data.length : Int) < 2 * n → 2 * n ≤ (writeCap data.length : Int) →
      ∃ s, h.buildWriteRequestHelper dev off n data sub = some s ∧
        ∃ pre, s = pre ++ bytesToHex (data ++ List.replicate ((2 * n).toNat - data.length) 0)) := by
  refine ⟨?_, ?_, ?_, ?_⟩
  · intro hn hlen
    exact ⟨_, station.buildWriteRequestHelper_eq_some h dev off n data sub (by omega)
      (by have := writeCap_ge data.length; omega)⟩
  · intro hn
    exact station.buildWriteRequestHelper_eq_none h dev off n data sub (by omega)
  · intro _ hcap
    exact station.buildWriteRequestHelper_eq_none h dev off n data sub (by omega)
  · intro hn hlt hcap
    refine ⟨_, station.buildWriteRequestHelper_eq_some h dev off n data sub (by omega) hcap,
      SUB_HEADER ++ h.networkNum ++ h.pcNum ++ h.unitIONum ++ h.unitStationNum ++
        dataLenHexOf ((MONITORING_TIMER ++ WRITE_COMMAND ++ WRITE_SUB_COMMAND ++
          deviceCodeOf dev ++ offsetHexOf off ++ pointsHexOf n ++
          writeHexOf data n).length / 2) ++
        MONITORING_TIMER ++ WRITE_COMMAND ++ sub ++ offsetHexOf off ++ deviceCodeOf dev ++
        pointsHexOf n, ?_⟩
    rw [writeHexOf_of_ge data n (by omega) hcap]

/-- Witness for C10 (amended): an in-bounds write, a negative point count, a
point count beyond the 64-byte buffer capacity, and a short data buffer whose
frame carries the zero padding. -/
theorem C10_amended_write_bounds_witness :
    (∃ s, NewLocalStation.buildWriteRequestHelper "D" 0 1 [1, 2] WRITE_SUB_COMMAND = some s) ∧
    NewLocalStation.buildWriteRequestHelper "D" 0 (-1) [1, 2] WRITE_SUB_COMMAND = none ∧
    NewLocalStation.buildWriteRequestHelper "D" 0 40 [1, 2] WRITE_SUB_COMMAND = none ∧
    (∃ s, NewLocalStation.buildWriteRequestHelper "D" 0 2 [1, 2] WRITE_SUB_COMMAND = some s ∧
      ∃ pre, s = pre ++
        bytesToHex ([1, 2] ++ List.replicate ((2 * (2 : Int)).toNat - [1, 2].length) 0)) :=
  ⟨(C10_amended_write_bounds NewLocalStation "D" 0 1 [1, 2] WRITE_SUB_COMMAND).1
      (by decide) (by decide),
   (C10_amended_write_bounds NewLocalStation "D" 0 (-1) [1, 2] WRITE_SUB_COMMAND).2.1 (by decide),
   (C10_amended_write_bounds NewLocalStation "D" 0 40 [1, 2] WRITE_SUB_COMMAND).2.2.1
      (by decide) (by decide),
   (C10_amended_write_bounds NewLocalStation "D" 0 2 [1, 2] WRITE_SUB_COMMAND).2.2.2
      (by decide) (by decide) (by decide)⟩

/-- C8: the health-check verification of the received bytes succeeds exactly
when the buffer is 18 bytes long, bytes `[11:13)` are `0x05 0x00` (hex
`"0500"`) and bytes `[13:18)` are the ASCII codes of `"ABCDE"` (hex
`"4142434445"`); any other buffer fails the liveness check. -/
theorem C8_healthcheck_echo_iff (resp : List Nat) (hb : ∀ b ∈ resp, b < 256) :
    healthCheckVerify resp = .ok () ↔
      resp.length = 18 ∧ listExtract 11 13 resp = [5, 0] ∧
      listExtract 13 18 resp = [65, 66, 67, 68, 69] := by
  constructor
  · intro hok
    unfold healthCheckVerify at hok
    by_cases c1 : resp.length ≠ 18
    · rw [if_pos c1] at hok
      exact absurd hok (by simp)
    · rw [if_neg c1] at hok
      by_cases c2 : bytesToHex (listExtract 11 13 resp) ≠ "0500"
      · rw [if_pos c2] at hok
        exact absurd hok (by simp)
      · rw [if_neg c2] at hok
        by_cases c3 : bytesToHex (listExtract 13 18 resp) ≠ "4142434445"
        · rw [if_pos c3] at hok
          exact absurd hok (by simp)
        · refine ⟨by omega, ?_, ?_⟩
          · apply bytesToHex_inj (fun b hbm => hb b (mem_of_mem_listExtract hbm)) (by decide)
            rw [not_ne_iff.mp c2]
            decide
          · apply bytesToHex_inj (fun b hbm => hb b (mem_of_mem_listExtract hbm)) (by decide)
            rw [not_ne_iff.mp c3]
            decide
  · rintro ⟨h18, h1, h2⟩
    unfold healthCheckVerify
    rw [if_neg (by omega), if_neg (by rw [h1]; decide), if_neg (by rw [h2]; decide)]

/-- Witness for C8: a synthetic 18-byte response satisfying the two range
conditions passes the liveness check. -/
theorem C8_healthcheck_echo_iff_witness :
    healthCheckVerify [80, 0, 0, 255, 255, 3, 0, 6, 0, 0, 0, 5, 0, 65, 66, 67, 68, 69] =
      .ok () :=
  (C8_healthcheck_echo_iff [80, 0, 0, 255, 255, 3, 0, 6, 0, 0, 0, 5, 0, 65, 66, 67, 68, 69]
    (by decide)).mpr (by decide)

end MCProto
